import Mathlib

/-!
Verification of the capability-scenario calculator of the Research-App
repository (`src/utils/data_processing.py`, function
`Predict_Best_Tolerance_based_on_Material`) and of the inline forecast
computation of `src/app.py`.

Modelling conventions:

* Python/numpy floating-point values are modelled by exact rationals `ℚ`.
* A pandas `DataFrame` is a list of rows; a row is an association list
  from column names to rational cell values.  `df[c]` is modelled by
  `getColumn`, which fails (as a pandas `KeyError` does) when the column
  is absent; `df[c].unique()[0]` is modelled by `firstVal`: pandas
  `unique` preserves the order of first occurrence, so its element `0`
  is the head of the column, and indexing an empty column raises
  (modelled by the `Except` error of `headE`).
* The sample standard deviation computed by `df["MeasValue"].std()` is
  the square root of the sample variance and is irrational for most
  rational data, so it cannot be computed inside `ℚ`.  The calculator is
  therefore embedded as a function of the data frame *and* of the value
  `std_dev`; every theorem constrains this parameter by the decidable
  relation `IsSampleStd`, which says exactly that `std_dev` is the
  (nonnegative) sample standard deviation of the `MeasValue` column.
* `float("inf")`, produced by the guarded expressions
  `... if std_dev > 0 else float("inf")`, is modelled by the two-point
  extension `PFloat` of `ℚ`.  All other arithmetic in the calculator is
  plain rational arithmetic.  (With numpy scalars, division of a nonzero
  float by `0.0` yields `inf`/`nan` with a runtime warning rather than
  raising `ZeroDivisionError`; where this matters — the degenerate
  `std_dev = 0` case of the scenario fields — it is discussed at the
  relevant theorem.)
* A Python result dict is modelled by the structure `PredictResult`
  whose optional fields are `none` when the corresponding key is absent
  from the dict (for `best_tolerance`, also when the key is present with
  value `None`, as on the failure paths).
* The `try`/`except` of the source is modelled by `predictBody`, an
  `Except String` computation for the body of the `try`, and the
  top-level function pattern-matching on its outcome, turning any error
  into the failure dict with message `"Error in prediction: " ++ e`.
-/

/-- A Python float that is either an exact rational or `float("inf")`.
Only the guarded `current_cp` / `current_cpk_lower` / `current_cpk_upper`
expressions can produce the infinity. -/
inductive PFloat where
  | fin : ℚ → PFloat
  | inf : PFloat
deriving DecidableEq, Repr

/-- Python `min` on the values that `current_cpk = min(lower, upper)` can
take: `min` of two finite floats is the smaller, and `min(x, inf) = x`,
`min(inf, x) = x`, `min(inf, inf) = inf`. -/
def pmin : PFloat → PFloat → PFloat
  | PFloat.fin a, PFloat.fin b => PFloat.fin (min a b)
  | PFloat.fin a, PFloat.inf => PFloat.fin a
  | PFloat.inf, b => b

/-- One scenario dict, as appended to the `scenarios` list by the source
(lines 126–180).  The `score` key is absent when the dict is built and is
added by the scoring loop (lines 184–187), hence `Option ℚ`. -/
structure Scenario where
  name : String
  tolerance : ℚ
  cp : ℚ
  cpk : ℚ
  gage_rr : ℚ
  lsl : ℚ
  usl : ℚ
  score : Option ℚ := none
deriving DecidableEq, Repr, Inhabited

/-- The dict returned by `Predict_Best_Tolerance_based_on_Material`.
A field is `none` when the corresponding key is absent from the returned
dict; `best_tolerance = none` also models the explicit `None` value of
the failure dicts. -/
structure PredictResult where
  success : Bool
  message : Option String := none
  best_tolerance : Option ℚ := none
  new_lsl : Option ℚ := none
  new_usl : Option ℚ := none
  resulting_cp : Option ℚ := none
  resulting_cpk : Option ℚ := none
  resulting_gage_rr : Option ℚ := none
  current_cp : Option PFloat := none
  current_cpk : Option PFloat := none
  current_gage_rr : Option ℚ := none
  all_scenarios : Option (List Scenario) := none
  recommended_scenario : Option String := none
deriving DecidableEq, Repr

/-- The failure dict `{"best_tolerance": None, "message": msg,
"success": False}` (source lines 98–102 and 211–216). -/
def mkFailure (msg : String) : PredictResult :=
  { success := false, message := some msg, best_tolerance := none }

/-- A row of the measurement table: column name to cell value. -/
abbrev Row := List (String × ℚ)

/-- A pandas data frame, as a list of rows. -/
structure DataFrame where
  rows : List Row
deriving DecidableEq, Repr

/-- `df[c]`: the column of values of `c`, or a `KeyError` when some row
has no such column. -/
def getColumn (df : DataFrame) (c : String) : Except String (List ℚ) :=
  if df.rows.all (fun row => (List.lookup c row).isSome) then
    Except.ok (df.rows.filterMap (fun row => List.lookup c row))
  else
    Except.error ("KeyError: " ++ c)

/-- Element `0` of a value array; raises (as numpy indexing does) when
the array is empty. -/
def headE (xs : List ℚ) : Except String ℚ :=
  match xs with
  | [] => Except.error "index 0 is out of bounds for axis 0 with size 0"
  | x :: _ => Except.ok x

/-- `df[c].unique()[0]`: pandas `unique` keeps first-occurrence order, so
element `0` of the unique array is the first value of the column. -/
def firstVal (df : DataFrame) (c : String) : Except String ℚ :=
  match getColumn df c with
  | Except.error e => Except.error e
  | Except.ok xs => headE xs

/-- `xs.mean()`: the average of the values. -/
def listMean (xs : List ℚ) : ℚ := xs.sum / (xs.length : ℚ)

/-- The numerator of the sample variance: the sum of squared deviations
from the mean. -/
def sampleVarNum (xs : List ℚ) : ℚ :=
  (xs.map (fun x => (x - listMean xs) * (x - listMean xs))).sum

/-- `s` is the sample standard deviation (pandas `std()`, `ddof = 1`) of
`xs`: `s` is nonnegative and `s * s` is the sample variance
`sampleVarNum xs / (n - 1)`.  For `n = 1` pandas yields `NaN`, which
behaves like `0` in the only comparison the calculator makes
(`std_dev > 0` is false for both); the relation then forces `s = 0`. -/
def IsSampleStd (xs : List ℚ) (s : ℚ) : Prop :=
  0 ≤ s ∧ s * s = sampleVarNum xs / ((xs.length : ℚ) - 1)

instance (xs : List ℚ) (s : ℚ) : Decidable (IsSampleStd xs s) :=
  inferInstanceAs (Decidable (And _ _))

/-- The four scenario dicts exactly as appended by source lines 126–180,
before the scoring loop runs. -/
def scenarioListUnscored (std_dev mean current_tolerance current_gage_rr : ℚ) :
    List Scenario :=
  let min_acceptable_tolerance := 6 * std_dev
  let gage_rr_at_min := current_gage_rr * current_tolerance / min_acceptable_tolerance
  let good_tolerance := 6 * std_dev * 1.33
  let gage_rr_at_good := current_gage_rr * current_tolerance / good_tolerance
  let high_tolerance := 6 * std_dev * 1.67
  let gage_rr_at_high := current_gage_rr * current_tolerance / high_tolerance
  let excellent_gage_tolerance := current_gage_rr * current_tolerance / 10
  let cp_at_excellent := excellent_gage_tolerance / (6 * std_dev)
  [ { name := "Minimum Acceptable Tolerance (Cp = 1.0)"
      tolerance := min_acceptable_tolerance
      cp := 1.0
      cpk := 1.0
      gage_rr := gage_rr_at_min
      lsl := mean - min_acceptable_tolerance / 2
      usl := mean + min_acceptable_tolerance / 2 },
    { name := "Good Quality Tolerance (Cp = 1.33)"
      tolerance := good_tolerance
      cp := 1.33
      cpk := 1.33
      gage_rr := gage_rr_at_good
      lsl := mean - good_tolerance / 2
      usl := mean + good_tolerance / 2 },
    { name := "High Quality Tolerance (Cp = 1.67)"
      tolerance := high_tolerance
      cp := 1.67
      cpk := 1.67
      gage_rr := gage_rr_at_high
      lsl := mean - high_tolerance / 2
      usl := mean + high_tolerance / 2 },
    { name := "Excellent Measurement System (Gage R&R = 10%)"
      tolerance := excellent_gage_tolerance
      cp := cp_at_excellent
      cpk := cp_at_excellent
      gage_rr := 10.0
      lsl := mean - excellent_gage_tolerance / 2
      usl := mean + excellent_gage_tolerance / 2 } ]

/-- The scoring loop (source lines 184–187): set
`scenario["score"] = scenario["cp"] - scenario["gage_rr"] / 100`. -/
def addScore (sc : Scenario) : Scenario :=
  { sc with score := some (sc.cp - sc.gage_rr / 100) }

/-- The success dict built from the extracted values (source lines
117–209): current metrics, the four scored scenarios, and the fields of
`best_scenario = scenarios[1]` promoted to the top level. -/
def successResult (std_dev mean lsl usl current_gage_rr : ℚ) : PredictResult :=
  let current_tolerance := usl - lsl
  let current_cp :=
    if 0 < std_dev then PFloat.fin (current_tolerance / (6 * std_dev)) else PFloat.inf
  let current_cpk_lower :=
    if 0 < std_dev then PFloat.fin ((mean - lsl) / (3 * std_dev)) else PFloat.inf
  let current_cpk_upper :=
    if 0 < std_dev then PFloat.fin ((usl - mean) / (3 * std_dev)) else PFloat.inf
  let current_cpk := pmin current_cpk_lower current_cpk_upper
  let scenarios :=
    (scenarioListUnscored std_dev mean current_tolerance current_gage_rr).map addScore
  let best_scenario := scenarios.getD 1 default
  { success := true
    best_tolerance := some best_scenario.tolerance
    new_lsl := some best_scenario.lsl
    new_usl := some best_scenario.usl
    resulting_cp := some best_scenario.cp
    resulting_cpk := some best_scenario.cpk
    resulting_gage_rr := some best_scenario.gage_rr
    current_cp := some current_cp
    current_cpk := some current_cpk
    current_gage_rr := some current_gage_rr
    all_scenarios := some scenarios
    recommended_scenario := some best_scenario.name }

/-- The body of the `try` block (source lines 106–209): extract the
columns and first values, then build the success dict.  `scenarios[1]`
cannot fail on the literal four-element list, so the body's only error
sources are the column and index accesses. -/
def predictBody (df : DataFrame) (std_dev : ℚ) : Except String PredictResult :=
  match getColumn df "MeasValue" with
  | Except.error e => Except.error e
  | Except.ok meas =>
    match firstVal df "LSL" with
    | Except.error e => Except.error e
    | Except.ok lsl =>
      match firstVal df "USL" with
      | Except.error e => Except.error e
      | Except.ok usl =>
        match firstVal df "Gage_RR" with
        | Except.error e => Except.error e
        | Except.ok current_gage_rr =>
          Except.ok (successResult std_dev (listMean meas) lsl usl current_gage_rr)

/-- `Predict_Best_Tolerance_based_on_Material(df)` of
`src/utils/data_processing.py`, with the sample standard deviation of
`df["MeasValue"]` supplied as the parameter `std_dev` (see the header
note on `IsSampleStd`): empty-table short circuit, then the `try` body,
with any error converted to the failure dict. -/
def Predict_Best_Tolerance_based_on_Material (df : DataFrame) (std_dev : ℚ) :
    PredictResult :=
  if df.rows.length = 0 then
    mkFailure "No data available for prediction"
  else
    match predictBody df std_dev with
    | Except.ok r => r
    | Except.error e => mkFailure ("Error in prediction: " ++ e)

/-- The inline forecast computation of `src/app.py` (lines 153–156 and
241–255): `Tolerance = USL.unique()[0] - LSL.unique()[0]`,
`result_df = value / (6 * std_dev)` (the forecast Cp), and
`Forecast_GRR = Gage_RR.unique()[0] * Tolerance / value`. -/
def forecastComputation (df : DataFrame) (value std_dev : ℚ) :
    Except String (ℚ × ℚ) :=
  match firstVal df "USL" with
  | Except.error e => Except.error e
  | Except.ok usl =>
    match firstVal df "LSL" with
    | Except.error e => Except.error e
    | Except.ok lsl =>
      let tolerance := usl - lsl
      let result_df := value / (6 * std_dev)
      match firstVal df "Gage_RR" with
      | Except.error e => Except.error e
      | Except.ok gage_rr_value =>
        Except.ok (result_df, gage_rr_value * tolerance / value)

/-- A concrete row of the running example: `LSL = 9.8`, `USL = 10.2`,
`Gage_RR = 15.0`, with the given measured value. -/
def exRow (m : ℚ) : Row :=
  [("MeasValue", m), ("LSL", 9.8), ("USL", 10.2), ("Gage_RR", 15.0)]

/-- The spec's running example table: measured values `9.95, 10, 10.05`
(sample mean `10`, sample standard deviation exactly `0.05`),
`LSL = 9.8`, `USL = 10.2`, `Gage_RR = 15.0`. -/
def exDf : DataFrame := ⟨[exRow 9.95, exRow 10, exRow 10.05]⟩

/-- A degenerate table whose `MeasValue` column is constant, so its
sample standard deviation is exactly `0`. -/
def zeroDf : DataFrame := ⟨[exRow 10, exRow 10]⟩

/-- A non-empty table lacking the `Gage_RR` column: extraction raises a
`KeyError` inside the `try` block. -/
def badDf : DataFrame :=
  ⟨[[("MeasValue", 10), ("LSL", 9.8), ("USL", 10.2)]]⟩

theorem body_ok_cases (df : DataFrame) (s : ℚ) (r : PredictResult)
    (h : predictBody df s = Except.ok r) :
    ∃ meas lsl usl g,
      getColumn df "MeasValue" = Except.ok meas ∧
      firstVal df "LSL" = Except.ok lsl ∧
      firstVal df "USL" = Except.ok usl ∧
      firstVal df "Gage_RR" = Except.ok g ∧
      r = successResult s (listMean meas) lsl usl g := by
  unfold predictBody at h
  split at h
  next e hm => exact Except.noConfusion h
  next meas hm =>
    split at h
    next e hl => exact Except.noConfusion h
    next lsl hl =>
      split at h
      next e hu => exact Except.noConfusion h
      next usl hu =>
        split at h
        next e hg => exact Except.noConfusion h
        next g hg =>
          exact ⟨meas, lsl, usl, g, hm, hl, hu, hg, (Except.ok.inj h).symm⟩

theorem predict_eval (df : DataFrame) (s : ℚ) (meas : List ℚ) (lsl usl g : ℚ)
    (hne : df.rows.length ≠ 0)
    (hm : getColumn df "MeasValue" = Except.ok meas)
    (hl : firstVal df "LSL" = Except.ok lsl)
    (hu : firstVal df "USL" = Except.ok usl)
    (hg : firstVal df "Gage_RR" = Except.ok g) :
    Predict_Best_Tolerance_based_on_Material df s =
      successResult s (listMean meas) lsl usl g := by
  unfold Predict_Best_Tolerance_based_on_Material predictBody
  rw [if_neg hne, hm, hl, hu, hg]

theorem predict_success_cases (df : DataFrame) (s : ℚ)
    (h : (Predict_Best_Tolerance_based_on_Material df s).success = true) :
    ∃ meas lsl usl g,
      getColumn df "MeasValue" = Except.ok meas ∧
      firstVal df "LSL" = Except.ok lsl ∧
      firstVal df "USL" = Except.ok usl ∧
      firstVal df "Gage_RR" = Except.ok g ∧
      Predict_Best_Tolerance_based_on_Material df s =
        successResult s (listMean meas) lsl usl g := by
  by_cases hne : df.rows.length = 0
  · exfalso
    unfold Predict_Best_Tolerance_based_on_Material at h
    rw [if_pos hne] at h
    simp [mkFailure] at h
  · cases hb : predictBody df s with
    | error e =>
        exfalso
        unfold Predict_Best_Tolerance_based_on_Material at h
        rw [if_neg hne, hb] at h
        simp [mkFailure] at h
    | ok r =>
        obtain ⟨meas, lsl, usl, g, hm, hl, hu, hg, hr⟩ := body_ok_cases df s r hb
        exact ⟨meas, lsl, usl, g, hm, hl, hu, hg,
          predict_eval df s meas lsl usl g hne hm hl hu hg⟩

/-- C1: for every table on which the computation succeeds, the
recommendation is fixed to scenario index 1 — the
"Good Quality Tolerance (Cp = 1.33)" scenario — and the top-level fields
`best_tolerance`, `new_lsl`, `new_usl`, `resulting_cp`, `resulting_cpk`,
`resulting_gage_rr` and `recommended_scenario` equal that scenario's
fields verbatim, regardless of the computed scores (the statement holds
for every data frame and every standard-deviation value, so in
particular independently of any scenario's score). -/
theorem C1_recommendation_fixed_to_scenario_one (df : DataFrame) (s : ℚ)
    (h : (Predict_Best_Tolerance_based_on_Material df s).success = true) :
    ∃ scenarios best,
      (Predict_Best_Tolerance_based_on_Material df s).all_scenarios
          = some scenarios ∧
      scenarios[1]? = some best ∧
      best.name = "Good Quality Tolerance (Cp = 1.33)" ∧
      (Predict_Best_Tolerance_based_on_Material df s).best_tolerance
          = some best.tolerance ∧
      (Predict_Best_Tolerance_based_on_Material df s).new_lsl
          = some best.lsl ∧
      (Predict_Best_Tolerance_based_on_Material df s).new_usl
          = some best.usl ∧
      (Predict_Best_Tolerance_based_on_Material df s).resulting_cp
          = some best.cp ∧
      (Predict_Best_Tolerance_based_on_Material df s).resulting_cpk
          = some best.cpk ∧
      (Predict_Best_Tolerance_based_on_Material df s).resulting_gage_rr
          = some best.gage_rr ∧
      (Predict_Best_Tolerance_based_on_Material df s).recommended_scenario
          = some best.name := by
  obtain ⟨meas, lsl, usl, g, hm, hl, hu, hg, heq⟩ := predict_success_cases df s h
  rw [heq]
  exact ⟨_, _, rfl, rfl, rfl, rfl, rfl, rfl, rfl, rfl, rfl, rfl⟩

/-- C1, witnessed at the running example table (standard deviation
`0.05`): the computation succeeds and the recommendation equals scenario
index 1 verbatim. -/
theorem C1_witness :
    ∃ scenarios best,
      (Predict_Best_Tolerance_based_on_Material exDf 0.05).all_scenarios
          = some scenarios ∧
      scenarios[1]? = some best ∧
      best.name = "Good Quality Tolerance (Cp = 1.33)" ∧
      (Predict_Best_Tolerance_based_on_Material exDf 0.05).best_tolerance
          = some best.tolerance ∧
      (Predict_Best_Tolerance_based_on_Material exDf 0.05).new_lsl
          = some best.lsl ∧
      (Predict_Best_Tolerance_based_on_Material exDf 0.05).new_usl
          = some best.usl ∧
      (Predict_Best_Tolerance_based_on_Material exDf 0.05).resulting_cp
          = some best.cp ∧
      (Predict_Best_Tolerance_based_on_Material exDf 0.05).resulting_cpk
          = some best.cpk ∧
      (Predict_Best_Tolerance_based_on_Material exDf 0.05).resulting_gage_rr
          = some best.gage_rr ∧
      (Predict_Best_Tolerance_based_on_Material exDf 0.05).recommended_scenario
          = some best.name :=
  C1_recommendation_fixed_to_scenario_one exDf 0.05 (by with_unfolding_all rfl)

/-- C2: for every non-empty table whose `MeasValue` column has sample
standard deviation `s > 0` (and whose `LSL`, `USL`, `Gage_RR` columns are
present, with first values `lsl`, `usl`, `g`), the result's `current_cp`
is exactly `(usl - lsl) / (6 * s)` and its `current_cpk` is exactly
`min ((mean - lsl) / (3 * s)) ((usl - mean) / (3 * s))` where `mean` is
the average of the `MeasValue` column. -/
theorem C2_current_cp_cpk (df : DataFrame) (s : ℚ) (meas : List ℚ)
    (lsl usl g : ℚ)
    (hne : df.rows.length ≠ 0)
    (hm : getColumn df "MeasValue" = Except.ok meas)
    (hl : firstVal df "LSL" = Except.ok lsl)
    (hu : firstVal df "USL" = Except.ok usl)
    (hg : firstVal df "Gage_RR" = Except.ok g)
    (hs : IsSampleStd meas s) (hpos : 0 < s) :
    (Predict_Best_Tolerance_based_on_Material df s).current_cp
        = some (PFloat.fin ((usl - lsl) / (6 * s))) ∧
    (Predict_Best_Tolerance_based_on_Material df s).current_cpk
        = some (PFloat.fin (min ((listMean meas - lsl) / (3 * s))
            ((usl - listMean meas) / (3 * s)))) := by
  rw [predict_eval df s meas lsl usl g hne hm hl hu hg]
  unfold successResult
  simp only [if_pos hpos]
  exact ⟨trivial, rfl⟩

/-- C2, witnessed at the running example table: sample standard
deviation `0.05 > 0`, so `current_cp = (10.2 - 9.8) / (6 * 0.05) = 4/3`
and `current_cpk` is the smaller one-sided estimate. -/
theorem C2_witness :
    (Predict_Best_Tolerance_based_on_Material exDf 0.05).current_cp
        = some (PFloat.fin ((10.2 - 9.8) / (6 * 0.05))) ∧
    (Predict_Best_Tolerance_based_on_Material exDf 0.05).current_cpk
        = some (PFloat.fin (min ((listMean [9.95, 10, 10.05] - 9.8) / (3 * 0.05))
            ((10.2 - listMean [9.95, 10, 10.05]) / (3 * 0.05)))) :=
  C2_current_cp_cpk exDf 0.05 [9.95, 10, 10.05] 9.8 10.2 15
    (by simp [exDf])
    (by with_unfolding_all rfl)
    (by with_unfolding_all rfl)
    (by with_unfolding_all rfl)
    (by with_unfolding_all rfl)
    ⟨by norm_num, by with_unfolding_all rfl⟩
    (by norm_num)

/-- C3: every successful computation produces exactly four scenarios
with tolerances `6·s` (Minimum), `6·s·1.33` (Good), `6·s·1.67` (High)
and `g·(usl − lsl)/10` (Excellent, whose Cp is derived back as
`tolerance/(6·s)`); concretely, on the example table with sample
standard deviation `0.05`, `LSL = 9.8`, `USL = 10.2`, `Gage_RR = 15.0`,
the Minimum scenario has tolerance `0.3` and Cp `1.0`, and the Good
scenario has tolerance `0.399` and Gage R&R `15.0 * 0.4 / 0.399`. -/
theorem C3_four_scenarios :
    (∀ (df : DataFrame) (s : ℚ) (meas : List ℚ) (lsl usl g : ℚ),
      df.rows.length ≠ 0 →
      getColumn df "MeasValue" = Except.ok meas →
      firstVal df "LSL" = Except.ok lsl →
      firstVal df "USL" = Except.ok usl →
      firstVal df "Gage_RR" = Except.ok g →
      IsSampleStd meas s →
      ∃ a b c d,
        (Predict_Best_Tolerance_based_on_Material df s).all_scenarios
            = some [a, b, c, d] ∧
        a.tolerance = 6 * s ∧
        b.tolerance = 6 * s * 1.33 ∧
        c.tolerance = 6 * s * 1.67 ∧
        d.tolerance = g * (usl - lsl) / 10 ∧
        d.cp = d.tolerance / (6 * s)) ∧
    (∃ a b c d,
      (Predict_Best_Tolerance_based_on_Material exDf 0.05).all_scenarios
          = some [a, b, c, d] ∧
      IsSampleStd [9.95, 10, 10.05] 0.05 ∧
      a.tolerance = 0.3 ∧ a.cp = 1.0 ∧
      b.tolerance = 0.399 ∧ b.gage_rr = 15.0 * 0.4 / 0.399) := by
  constructor
  · intro df s meas lsl usl g hne hm hl hu hg hs
    rw [predict_eval df s meas lsl usl g hne hm hl hu hg]
    unfold successResult scenarioListUnscored addScore
    exact ⟨_, _, _, _, rfl, rfl, rfl, rfl, rfl, rfl⟩
  · refine ⟨_, _, _, _, by with_unfolding_all rfl,
      ⟨by norm_num, by with_unfolding_all rfl⟩, ?_, ?_, ?_, ?_⟩ <;>
      with_unfolding_all rfl

/-- C3, witnessed at a second instantiation of the universal part: the
example table, standard deviation `0.05`, first values `9.8`, `10.2`,
`15`. -/
theorem C3_witness :
    ∃ a b c d,
      (Predict_Best_Tolerance_based_on_Material exDf 0.05).all_scenarios
          = some [a, b, c, d] ∧
      a.tolerance = 6 * 0.05 ∧
      b.tolerance = 6 * 0.05 * 1.33 ∧
      c.tolerance = 6 * 0.05 * 1.67 ∧
      d.tolerance = 15 * (10.2 - 9.8) / 10 ∧
      d.cp = d.tolerance / (6 * 0.05) :=
  C3_four_scenarios.1 exDf 0.05 [9.95, 10, 10.05] 9.8 10.2 15
    (by simp [exDf])
    (by with_unfolding_all rfl)
    (by with_unfolding_all rfl)
    (by with_unfolding_all rfl)
    (by with_unfolding_all rfl)
    ⟨by norm_num, by with_unfolding_all rfl⟩

/-- C4, counterexample: on a table whose `MeasValue` column is constant
(sample standard deviation exactly `0`, `LSL = 9.8`, `USL = 10.2`,
`Gage_RR = 15`), the computation still succeeds and generates its four
scenarios, but the first (Minimum, not Excellent) scenario violates the
invariant `gage_rr * tolerance = currentGageRR * currentTolerance`:
its tolerance is `6 * 0 = 0`, so the product cannot equal
`15 * 0.4 = 6`.  (In the Python source the scenario's `gage_rr` is a
numpy division of a nonzero float by `0.0`, giving `inf` with a runtime
warning, and `inf * 0.0` is `nan`, which compares unequal to `6.0`; in
this rational model the division yields `0`, and the product `0` is
likewise unequal to `6`.  Under both semantics the claimed equation
fails.) -/
theorem C4_counterexample :
    IsSampleStd [(10 : ℚ), 10] 0 ∧
    (Predict_Best_Tolerance_based_on_Material zeroDf 0).success = true ∧
    (Predict_Best_Tolerance_based_on_Material zeroDf 0).current_gage_rr
        = some 15 ∧
    firstVal zeroDf "USL" = Except.ok 10.2 ∧
    firstVal zeroDf "LSL" = Except.ok 9.8 ∧
    ((Predict_Best_Tolerance_based_on_Material zeroDf 0).all_scenarios.getD
        []).length = 4 ∧
    (((Predict_Best_Tolerance_based_on_Material zeroDf 0).all_scenarios.getD
        []).getD 0 default).name = "Minimum Acceptable Tolerance (Cp = 1.0)" ∧
    (((Predict_Best_Tolerance_based_on_Material zeroDf 0).all_scenarios.getD
        []).getD 0 default).gage_rr *
      (((Predict_Best_Tolerance_based_on_Material zeroDf 0).all_scenarios.getD
        []).getD 0 default).tolerance ≠ 15 * (10.2 - 9.8) := by
  refine ⟨⟨le_refl 0, by with_unfolding_all rfl⟩, by with_unfolding_all rfl,
    by with_unfolding_all rfl, by with_unfolding_all rfl,
    by with_unfolding_all rfl, by with_unfolding_all rfl,
    by with_unfolding_all rfl, ?_⟩
  have h0 : (((Predict_Best_Tolerance_based_on_Material zeroDf 0).all_scenarios.getD
      []).getD 0 default).gage_rr *
      (((Predict_Best_Tolerance_based_on_Material zeroDf 0).all_scenarios.getD
      []).getD 0 default).tolerance = 0 := by with_unfolding_all rfl
  rw [h0]
  norm_num

/-- C4, amended: for every non-empty table whose `MeasValue` sample
standard deviation is strictly positive, all four generated scenarios
satisfy the inverse-proportionality invariant
`gage_rr * tolerance = currentGageRR * currentTolerance`; for the first
three the Gage R&R is derived from the tolerance, while for the
Excellent scenario the `gage_rr` is fixed at `10` and the tolerance is
instead derived as `currentGageRR * currentTolerance / 10` (so it too
satisfies the invariant).  The original claim fails only in the
degenerate `stdDev = 0` case exhibited by the counterexample. -/
theorem C4_inverse_proportionality (df : DataFrame) (s : ℚ) (meas : List ℚ)
    (lsl usl g : ℚ)
    (hne : df.rows.length ≠ 0)
    (hm : getColumn df "MeasValue" = Except.ok meas)
    (hl : firstVal df "LSL" = Except.ok lsl)
    (hu : firstVal df "USL" = Except.ok usl)
    (hg : firstVal df "Gage_RR" = Except.ok g)
    (hs : IsSampleStd meas s) (hpos : 0 < s) :
    ∃ a b c d,
      (Predict_Best_Tolerance_based_on_Material df s).all_scenarios
          = some [a, b, c, d] ∧
      (Predict_Best_Tolerance_based_on_Material df s).current_gage_rr
          = some g ∧
      a.gage_rr * a.tolerance = g * (usl - lsl) ∧
      b.gage_rr * b.tolerance = g * (usl - lsl) ∧
      c.gage_rr * c.tolerance = g * (usl - lsl) ∧
      d.gage_rr = 10 ∧
      d.tolerance = g * (usl - lsl) / 10 ∧
      d.gage_rr * d.tolerance = g * (usl - lsl) := by
  rw [predict_eval df s meas lsl usl g hne hm hl hu hg]
  unfold successResult scenarioListUnscored addScore
  have h6 : (6 : ℚ) * s ≠ 0 := ne_of_gt (mul_pos (by norm_num) hpos)
  have h133 : (6 : ℚ) * s * 1.33 ≠ 0 :=
    ne_of_gt (mul_pos (mul_pos (by norm_num) hpos) (by norm_num))
  have h167 : (6 : ℚ) * s * 1.67 ≠ 0 :=
    ne_of_gt (mul_pos (mul_pos (by norm_num) hpos) (by norm_num))
  refine ⟨_, _, _, _, rfl, rfl, ?_, ?_, ?_, ?_, rfl, ?_⟩
  · show g * (usl - lsl) / (6 * s) * (6 * s) = g * (usl - lsl)
    exact div_mul_cancel₀ _ h6
  · show g * (usl - lsl) / (6 * s * 1.33) * (6 * s * 1.33) = g * (usl - lsl)
    exact div_mul_cancel₀ _ h133
  · show g * (usl - lsl) / (6 * s * 1.67) * (6 * s * 1.67) = g * (usl - lsl)
    exact div_mul_cancel₀ _ h167
  · show (10.0 : ℚ) = 10
    norm_num
  · show (10.0 : ℚ) * (g * (usl - lsl) / 10) = g * (usl - lsl)
    rw [show (10.0 : ℚ) = 10 from by norm_num, mul_comm]
    exact div_mul_cancel₀ _ (by norm_num)

/-- C4 (amended), witnessed at the example table with standard deviation
`0.05 > 0`. -/
theorem C4_witness :
    ∃ a b c d,
      (Predict_Best_Tolerance_based_on_Material exDf 0.05).all_scenarios
          = some [a, b, c, d] ∧
      (Predict_Best_Tolerance_based_on_Material exDf 0.05).current_gage_rr
          = some 15 ∧
      a.gage_rr * a.tolerance = 15 * (10.2 - 9.8) ∧
      b.gage_rr * b.tolerance = 15 * (10.2 - 9.8) ∧
      c.gage_rr * c.tolerance = 15 * (10.2 - 9.8) ∧
      d.gage_rr = 10 ∧
      d.tolerance = 15 * (10.2 - 9.8) / 10 ∧
      d.gage_rr * d.tolerance = 15 * (10.2 - 9.8) :=
  C4_inverse_proportionality exDf 0.05 [9.95, 10, 10.05] 9.8 10.2 15
    (by simp [exDf])
    (by with_unfolding_all rfl)
    (by with_unfolding_all rfl)
    (by with_unfolding_all rfl)
    (by with_unfolding_all rfl)
    ⟨by norm_num, by with_unfolding_all rfl⟩
    (by norm_num)

/-- C5: in every successful computation, every generated scenario has
`cpk` equal to its `cp`, and its `lsl` and `usl` symmetric about the
mean of the `MeasValue` column: `lsl = mean - tolerance / 2` and
`usl = mean + tolerance / 2`. -/
theorem C5_cpk_eq_cp_and_symmetric_limits (df : DataFrame) (s : ℚ)
    (meas : List ℚ) (lsl usl g : ℚ)
    (hne : df.rows.length ≠ 0)
    (hm : getColumn df "MeasValue" = Except.ok meas)
    (hl : firstVal df "LSL" = Except.ok lsl)
    (hu : firstVal df "USL" = Except.ok usl)
    (hg : firstVal df "Gage_RR" = Except.ok g) :
    ∃ scenarios,
      (Predict_Best_Tolerance_based_on_Material df s).all_scenarios
          = some scenarios ∧
      ∀ sc ∈ scenarios,
        sc.cpk = sc.cp ∧
        sc.lsl = listMean meas - sc.tolerance / 2 ∧
        sc.usl = listMean meas + sc.tolerance / 2 := by
  rw [predict_eval df s meas lsl usl g hne hm hl hu hg]
  unfold successResult scenarioListUnscored addScore
  refine ⟨_, rfl, ?_⟩
  intro sc hsc
  simp only [List.map_cons, List.map_nil, List.mem_cons, List.not_mem_nil,
    or_false] at hsc
  rcases hsc with h | h | h | h <;> subst h <;> exact ⟨rfl, rfl, rfl⟩

/-- C5, witnessed at the example table. -/
theorem C5_witness :
    ∃ scenarios,
      (Predict_Best_Tolerance_based_on_Material exDf 0.05).all_scenarios
          = some scenarios ∧
      ∀ sc ∈ scenarios,
        sc.cpk = sc.cp ∧
        sc.lsl = listMean [9.95, 10, 10.05] - sc.tolerance / 2 ∧
        sc.usl = listMean [9.95, 10, 10.05] + sc.tolerance / 2 :=
  C5_cpk_eq_cp_and_symmetric_limits exDf 0.05 [9.95, 10, 10.05] 9.8 10.2 15
    (by simp [exDf])
    (by with_unfolding_all rfl)
    (by with_unfolding_all rfl)
    (by with_unfolding_all rfl)
    (by with_unfolding_all rfl)

/-- C6: for a table with zero rows the calculator short-circuits and
returns the failure dict with `success = false` and the message
`"No data available for prediction"` — independently of the standard
deviation parameter and of any column content, so before any
arithmetic. -/
theorem C6_empty_table (df : DataFrame) (s : ℚ) (h : df.rows = []) :
    Predict_Best_Tolerance_based_on_Material df s
        = mkFailure "No data available for prediction" ∧
    (Predict_Best_Tolerance_based_on_Material df s).success = false ∧
    (Predict_Best_Tolerance_based_on_Material df s).message
        = some "No data available for prediction" := by
  have hlen : df.rows.length = 0 := by rw [h]; rfl
  unfold Predict_Best_Tolerance_based_on_Material
  rw [if_pos hlen]
  exact ⟨rfl, rfl, rfl⟩

/-- C6, witnessed at the empty data frame. -/
theorem C6_witness :
    Predict_Best_Tolerance_based_on_Material ⟨[]⟩ 0
        = mkFailure "No data available for prediction" ∧
    (Predict_Best_Tolerance_based_on_Material ⟨[]⟩ 0).success = false ∧
    (Predict_Best_Tolerance_based_on_Material ⟨[]⟩ 0).message
        = some "No data available for prediction" :=
  C6_empty_table ⟨[]⟩ 0 rfl

/-- C7: for every non-empty table, the calculator is a total function
whose result is always a well-formed dict: every error of the `try`
body (missing column, empty unique-value array) is caught and converted
to the failure dict with the human-readable message
`"Error in prediction: " ++ e`, and when the body does not error the
body's success dict is returned unchanged.  No exception escapes. -/
theorem C7_exceptions_caught (df : DataFrame) (s : ℚ)
    (hne : df.rows.length ≠ 0) :
    (∀ e, predictBody df s = Except.error e →
      Predict_Best_Tolerance_based_on_Material df s
          = mkFailure ("Error in prediction: " ++ e) ∧
      (Predict_Best_Tolerance_based_on_Material df s).success = false ∧
      (Predict_Best_Tolerance_based_on_Material df s).message
          = some ("Error in prediction: " ++ e)) ∧
    (∀ r, predictBody df s = Except.ok r →
      Predict_Best_Tolerance_based_on_Material df s = r ∧
      r.success = true) := by
  constructor
  · intro e he
    unfold Predict_Best_Tolerance_based_on_Material
    rw [if_neg hne, he]
    exact ⟨rfl, rfl, rfl⟩
  · intro r hr
    obtain ⟨meas, lsl, usl, g, hm, hl, hu, hg, hreq⟩ := body_ok_cases df s r hr
    constructor
    · unfold Predict_Best_Tolerance_based_on_Material
      rw [if_neg hne, hr]
    · rw [hreq]
      rfl

/-- C7, witnessed at a non-empty table lacking the `Gage_RR` column: the
body raises a `KeyError`, and the calculator returns the corresponding
failure dict instead of propagating it. -/
theorem C7_witness :
    Predict_Best_Tolerance_based_on_Material badDf 0
        = mkFailure "Error in prediction: KeyError: Gage_RR" ∧
    (Predict_Best_Tolerance_based_on_Material badDf 0).success = false ∧
    (Predict_Best_Tolerance_based_on_Material badDf 0).message
        = some "Error in prediction: KeyError: Gage_RR" :=
  (C7_exceptions_caught badDf 0 (by simp [badDf])).1 "KeyError: Gage_RR"
    (by with_unfolding_all rfl)

/-- C8: for every non-empty table whose required columns are present and
whose `MeasValue` sample standard deviation is exactly `0`, the
calculator does not fail — the computation reaches the success dict (in
the source, the numpy scenario divisions by `0.0` produce `inf`/`nan`
values with a runtime warning rather than raising) — and `current_cp`
and `current_cpk` are positive infinity, produced by the explicit
`... if std_dev > 0 else float("inf")` guards. -/
theorem C8_zero_std_infinite_capability (df : DataFrame) (meas : List ℚ)
    (lsl usl g : ℚ)
    (hne : df.rows.length ≠ 0)
    (hm : getColumn df "MeasValue" = Except.ok meas)
    (hl : firstVal df "LSL" = Except.ok lsl)
    (hu : firstVal df "USL" = Except.ok usl)
    (hg : firstVal df "Gage_RR" = Except.ok g)
    (hs : IsSampleStd meas 0) :
    (Predict_Best_Tolerance_based_on_Material df 0).success = true ∧
    (Predict_Best_Tolerance_based_on_Material df 0).current_cp
        = some PFloat.inf ∧
    (Predict_Best_Tolerance_based_on_Material df 0).current_cpk
        = some PFloat.inf := by
  rw [predict_eval df 0 meas lsl usl g hne hm hl hu hg]
  unfold successResult
  simp only [lt_irrefl, if_false]
  exact ⟨trivial, trivial, rfl⟩

/-- C8, witnessed at the constant table (`MeasValue` all `10`), whose
sample standard deviation is exactly `0`. -/
theorem C8_witness :
    (Predict_Best_Tolerance_based_on_Material zeroDf 0).success = true ∧
    (Predict_Best_Tolerance_based_on_Material zeroDf 0).current_cp
        = some PFloat.inf ∧
    (Predict_Best_Tolerance_based_on_Material zeroDf 0).current_cpk
        = some PFloat.inf :=
  C8_zero_std_infinite_capability zeroDf [10, 10] 9.8 10.2 15
    (by simp [zeroDf])
    (by with_unfolding_all rfl)
    (by with_unfolding_all rfl)
    (by with_unfolding_all rfl)
    (by with_unfolding_all rfl)
    ⟨le_refl 0, by with_unfolding_all rfl⟩

/-- C9: for every user-chosen tolerance `value > 0` and every filtered
table with sample standard deviation `s > 0`, the forecast computation
yields forecast Cp `value / (6 * s)` and forecast Gage R&R
`g * (usl - lsl) / value`, where `g`, `usl`, `lsl` are the first
observed `Gage_RR`, `USL`, `LSL` values; in particular `value = 0.3`
with `s = 0.05` yields forecast Cp `1`. -/
theorem C9_forecast :
    (∀ (df : DataFrame) (value s : ℚ) (meas : List ℚ) (lsl usl g : ℚ),
      0 < value →
      getColumn df "MeasValue" = Except.ok meas →
      IsSampleStd meas s → 0 < s →
      firstVal df "USL" = Except.ok usl →
      firstVal df "LSL" = Except.ok lsl →
      firstVal df "Gage_RR" = Except.ok g →
      forecastComputation df value s
          = Except.ok (value / (6 * s), g * (usl - lsl) / value)) ∧
    (IsSampleStd [9.95, 10, 10.05] 0.05 ∧
      forecastComputation exDf 0.3 0.05 = Except.ok (1, 20)) := by
  constructor
  · intro df value s meas lsl usl g hv hm hs hpos hu hl hg
    unfold forecastComputation
    rw [hu, hl, hg]
  · exact ⟨⟨by norm_num, by with_unfolding_all rfl⟩, by with_unfolding_all rfl⟩

/-- C9, witnessed at the example table with `value = 0.3`,
`s = 0.05`. -/
theorem C9_witness :
    forecastComputation exDf 0.3 0.05
        = Except.ok (0.3 / (6 * 0.05), 15 * (10.2 - 9.8) / 0.3) :=
  C9_forecast.1 exDf 0.3 0.05 [9.95, 10, 10.05] 9.8 10.2 15
    (by norm_num)
    (by with_unfolding_all rfl)
    ⟨by norm_num, by with_unfolding_all rfl⟩
    (by norm_num)
    (by with_unfolding_all rfl)
    (by with_unfolding_all rfl)
    (by with_unfolding_all rfl)

/-- C10: on every failure path (empty table or caught body error) the
returned dict is exactly the failure dict: `success = false`, a message,
`best_tolerance` explicitly `None`, and none of the scenario or
current-metric keys present. -/
theorem C10_failure_dict_shape (df : DataFrame) (s : ℚ)
    (h : (Predict_Best_Tolerance_based_on_Material df s).success = false) :
    ∃ m,
      Predict_Best_Tolerance_based_on_Material df s = mkFailure m ∧
      (Predict_Best_Tolerance_based_on_Material df s).message = some m ∧
      (Predict_Best_Tolerance_based_on_Material df s).best_tolerance = none ∧
      (Predict_Best_Tolerance_based_on_Material df s).new_lsl = none ∧
      (Predict_Best_Tolerance_based_on_Material df s).new_usl = none ∧
      (Predict_Best_Tolerance_based_on_Material df s).resulting_cp = none ∧
      (Predict_Best_Tolerance_based_on_Material df s).resulting_cpk = none ∧
      (Predict_Best_Tolerance_based_on_Material df s).resulting_gage_rr = none ∧
      (Predict_Best_Tolerance_based_on_Material df s).current_cp = none ∧
      (Predict_Best_Tolerance_based_on_Material df s).current_cpk = none ∧
      (Predict_Best_Tolerance_based_on_Material df s).current_gage_rr = none ∧
      (Predict_Best_Tolerance_based_on_Material df s).all_scenarios = none ∧
      (Predict_Best_Tolerance_based_on_Material df s).recommended_scenario
          = none := by
  by_cases hne : df.rows.length = 0
  · refine ⟨"No data available for prediction", ?_⟩
    unfold Predict_Best_Tolerance_based_on_Material
    rw [if_pos hne]
    exact ⟨rfl, rfl, rfl, rfl, rfl, rfl, rfl, rfl, rfl, rfl, rfl, rfl, rfl⟩
  · cases hb : predictBody df s with
    | error e =>
        refine ⟨"Error in prediction: " ++ e, ?_⟩
        unfold Predict_Best_Tolerance_based_on_Material
        rw [if_neg hne, hb]
        exact ⟨rfl, rfl, rfl, rfl, rfl, rfl, rfl, rfl, rfl, rfl, rfl, rfl, rfl⟩
    | ok r =>
        exfalso
        obtain ⟨meas, lsl, usl, g, hm, hl, hu, hg, hreq⟩ := body_ok_cases df s r hb
        have hp : Predict_Best_Tolerance_based_on_Material df s = r := by
          unfold Predict_Best_Tolerance_based_on_Material
          rw [if_neg hne, hb]
        rw [hp, hreq] at h
        exact absurd h (by simp [successResult])

/-- C10, witnessed at the non-empty table lacking the `Gage_RR` column:
the caught `KeyError` yields the failure dict with `best_tolerance =
None` and no scenario or current-metric keys. -/
theorem C10_witness :
    ∃ m,
      Predict_Best_Tolerance_based_on_Material badDf 0 = mkFailure m ∧
      (Predict_Best_Tolerance_based_on_Material badDf 0).message = some m ∧
      (Predict_Best_Tolerance_based_on_Material badDf 0).best_tolerance = none ∧
      (Predict_Best_Tolerance_based_on_Material badDf 0).new_lsl = none ∧
      (Predict_Best_Tolerance_based_on_Material badDf 0).new_usl = none ∧
      (Predict_Best_Tolerance_based_on_Material badDf 0).resulting_cp = none ∧
      (Predict_Best_Tolerance_based_on_Material badDf 0).resulting_cpk = none ∧
      (Predict_Best_Tolerance_based_on_Material badDf 0).resulting_gage_rr
          = none ∧
      (Predict_Best_Tolerance_based_on_Material badDf 0).current_cp = none ∧
      (Predict_Best_Tolerance_based_on_Material badDf 0).current_cpk = none ∧
      (Predict_Best_Tolerance_based_on_Material badDf 0).current_gage_rr
          = none ∧
      (Predict_Best_Tolerance_based_on_Material badDf 0).all_scenarios = none ∧
      (Predict_Best_Tolerance_based_on_Material badDf 0).recommended_scenario
          = none :=
  C10_failure_dict_shape badDf 0 (by with_unfolding_all rfl)
